import Mathlib

/-!
Shallow embedding of the core simulation of `src/jasper/game.js`
("Ninja vs Zombies"): the utility math, the shared entity damage model,
the zombie and boss AI steps, the projectile collision slice, and the
spawn-director / portal logic of `Game.update`.

All JS numbers are modelled as exact rationals (`ℚ`), JS booleans as
`Bool`.  Rendering, audio synthesis and DOM wiring are outside the model;
audio cues and particle bursts are kept as discrete outputs (counts /
flags) because the spec claims mention them.
-/

namespace Jasper

/-- CONFIG.GRAVITY (game.js line 8): 0.6. -/
def GRAVITY : ℚ := 3/5

/-- CONFIG.FRICTION (game.js line 9): 0.8. -/
def FRICTION : ℚ := 4/5

/-- CONFIG.INVINCIBILITY_DURATION (game.js line 14). -/
def INVINCIBILITY_DURATION : ℚ := 30

/-- CONFIG.GROUND_Y (game.js line 18). -/
def GROUND_Y : ℚ := 380

/-- CONFIG.LEVEL_LENGTH (game.js line 19). -/
def LEVEL_LENGTH : ℚ := 3000

/-- CONFIG.MAX_COMBO (game.js line 21). -/
def MAX_COMBO : ℕ := 50

/-- An axis-aligned rectangle given as x/y/w/h, as used throughout game.js. -/
structure Rect where
  x : ℚ
  y : ℚ
  w : ℚ
  h : ℚ

/-- Utils.rectIntersect (game.js line 39):
`!(r2.x > r1.x + r1.w || r2.x + r2.w < r1.x || r2.y > r1.y + r1.h || r2.y + r2.h < r1.y)`. -/
def rectIntersect (r1 r2 : Rect) : Bool :=
  !(decide (r2.x > r1.x + r1.w) || decide (r2.x + r2.w < r1.x) ||
    decide (r2.y > r1.y + r1.h) || decide (r2.y + r2.h < r1.y))

/-- Open-interior overlap of two rectangles (strict inequalities on every
side), used to state what the spec calls "interiors overlap". -/
def interiorsOverlap (r1 r2 : Rect) : Prop :=
  r1.x < r2.x + r2.w ∧ r2.x < r1.x + r1.w ∧ r1.y < r2.y + r2.h ∧ r2.y < r1.y + r1.h

/-- Shared Entity state (game.js lines 311–325) together with the `health`
field that every concrete actor (Player / Zombie / Boss) adds and that
`Entity.takeDamage` reads. -/
structure Actor where
  x : ℚ
  y : ℚ
  w : ℚ
  h : ℚ
  vx : ℚ
  vy : ℚ
  facing : ℚ
  grounded : Bool
  dead : Bool
  invincible : ℚ
  health : ℚ
  animFrame : ℕ
  animTimer : ℕ

/-- Entity.getBounds (game.js lines 327–329). -/
def Actor.getBounds (a : Actor) : Rect :=
  { x := a.x, y := a.y, w := a.w, h := a.h }

/-- Entity.updatePhysics (game.js lines 331–348). -/
def updatePhysics (a : Actor) : Actor :=
  let a := { a with vy := a.vy + GRAVITY }
  let a := { a with vx := a.vx * FRICTION }
  let a := { a with x := a.x + a.vx, y := a.y + a.vy }
  let a :=
    if a.y + a.h > GROUND_Y then
      { a with y := GROUND_Y - a.h, vy := 0, grounded := true }
    else
      { a with grounded := false }
  if a.invincible > 0 then { a with invincible := a.invincible - 1 } else a

/-- Entity.takeDamage (game.js lines 350–362): the single damage entry
point shared by all actor types.  Returns the JS boolean result together
with the updated actor. -/
def takeDamage (a : Actor) (amount knockbackX : ℚ) : Bool × Actor :=
  if a.invincible > 0 then (false, a)
  else
    let a := { a with health := a.health - amount, vx := knockbackX, vy := -3,
                      invincible := INVINCIBILITY_DURATION }
    let a := if a.health ≤ 0 then { a with dead := true } else a
    (true, a)

/-- C3 counterexample: two rectangles sharing only the vertical boundary
edge x = 10 (r1 right edge = r2 left edge) are reported as intersecting by
Utils.rectIntersect, because the separation tests are strict. -/
theorem rectIntersect_touchingEdge_true :
    rectIntersect ⟨0, 0, 10, 10⟩ ⟨10, 0, 10, 10⟩ = true := by
  simp only [rectIntersect, Bool.not_eq_true', Bool.or_eq_false_iff,
    decide_eq_false_iff_not, not_lt]
  norm_num

/-- C3 (amended): Utils.rectIntersect returns true whenever the interiors
overlap, and also returns true when the rectangles merely touch along an
edge (here: r1's right edge equals r2's left edge with vertical extents
meeting); it returns false only under strict separation. -/
theorem rectIntersect_spec (r1 r2 : Rect) (hw1 : 0 ≤ r1.w) (hw2 : 0 ≤ r2.w) :
    (interiorsOverlap r1 r2 → rectIntersect r1 r2 = true) ∧
    (r1.x + r1.w = r2.x → r2.y ≤ r1.y + r1.h → r1.y ≤ r2.y + r2.h →
      rectIntersect r1 r2 = true) := by
  constructor
  · rintro ⟨h1, h2, h3, h4⟩
    simp only [rectIntersect, Bool.not_eq_true', Bool.or_eq_false_iff,
      decide_eq_false_iff_not, not_lt]
    refine ⟨⟨⟨?_, ?_⟩, ?_⟩, ?_⟩ <;> linarith
  · intro hx hy1 hy2
    simp only [rectIntersect, Bool.not_eq_true', Bool.or_eq_false_iff,
      decide_eq_false_iff_not, not_lt]
    refine ⟨⟨⟨?_, ?_⟩, ?_⟩, ?_⟩ <;> linarith

/-- Witness for C3's amended theorem at concrete rectangles: interiors of
(0,0,10,10) and (5,5,10,10) overlap, and (0,0,10,10) touches (10,0,10,10)
along x = 10; both are reported as intersecting. -/
theorem rectIntersect_spec_witness :
    rectIntersect ⟨0, 0, 10, 10⟩ ⟨5, 5, 10, 10⟩ = true ∧
    rectIntersect ⟨0, 0, 10, 10⟩ ⟨10, 0, 10, 10⟩ = true := by
  constructor
  · exact (rectIntersect_spec ⟨0, 0, 10, 10⟩ ⟨5, 5, 10, 10⟩ (by norm_num)
      (by norm_num)).1 (by refine ⟨?_, ?_, ?_, ?_⟩ <;> norm_num)
  · exact (rectIntersect_spec ⟨0, 0, 10, 10⟩ ⟨10, 0, 10, 10⟩ (by norm_num)
      (by norm_num)).2 (by norm_num) (by norm_num) (by norm_num)

/-- C4: Entity.takeDamage on a live actor fails without mutation while
invincibility is active; otherwise it returns true, subtracts the amount
from health, sets vx to the knockback, vy to the fixed upward impulse -3,
invincibility to INVINCIBILITY_DURATION (30), and marks the actor dead
exactly when the resulting health is ≤ 0. -/
theorem takeDamage_spec (a : Actor) (amount knockbackX : ℚ)
    (hd : a.dead = false) :
    (a.invincible > 0 → takeDamage a amount knockbackX = (false, a)) ∧
    (¬ a.invincible > 0 →
      (takeDamage a amount knockbackX).1 = true ∧
      (takeDamage a amount knockbackX).2.health = a.health - amount ∧
      (takeDamage a amount knockbackX).2.vx = knockbackX ∧
      (takeDamage a amount knockbackX).2.vy = -3 ∧
      (takeDamage a amount knockbackX).2.invincible = INVINCIBILITY_DURATION ∧
      ((takeDamage a amount knockbackX).2.dead = true ↔ a.health - amount ≤ 0)) := by
  constructor
  · intro h
    simp [takeDamage, h]
  · intro h
    simp only [takeDamage, if_neg h]
    split_ifs with h2
    · simp [h2]
    · simp [h2, hd]

/-- A live test actor used to instantiate the takeDamage theorems. -/
def actorA : Actor :=
  { x := 0, y := 330, w := 30, h := 50, vx := 0, vy := 0, facing := 1,
    grounded := true, dead := false, invincible := 0, health := 100,
    animFrame := 0, animTimer := 0 }

/-- Witness for C4 at a concrete live actor with invincible = 0 and
health 100: takeDamage 10 2 succeeds, leaves health 90 and does not kill. -/
theorem takeDamage_spec_witness :
    (takeDamage actorA 10 2).1 = true ∧
    (takeDamage actorA 10 2).2.health = 90 ∧
    (takeDamage actorA 10 2).2.dead = false := by
  have h := (takeDamage_spec actorA 10 2 rfl).2 (by norm_num [actorA])
  refine ⟨h.1, ?_, ?_⟩
  · rw [h.2.1]; norm_num [actorA]
  · have hdead := h.2.2.2.2.2
    have h90 : ¬ (actorA.health - 10 ≤ 0) := by norm_num [actorA]
    rw [← Bool.not_eq_true]
    exact fun ht => h90 (hdead.mp ht)

/-- An already-dead test actor whose invincibility window has fully
elapsed (health -5, invincible 0). -/
def deadActor : Actor :=
  { x := 0, y := 330, w := 30, h := 50, vx := 0, vy := 0, facing := 1,
    grounded := true, dead := true, invincible := 0, health := -5,
    animFrame := 0, animTimer := 0 }

/-- C5 counterexample: takeDamage never inspects the dead flag, so calling
it on an already-dead actor whose invincibility counter is 0 is NOT a
no-op: it returns true and mutates health and velocity. -/
theorem takeDamage_dead_mutates :
    (takeDamage deadActor 10 2).1 = true ∧
    (takeDamage deadActor 10 2).2.health = -15 ∧
    (takeDamage deadActor 10 2).2.vx = 2 := by
  refine ⟨?_, ?_, ?_⟩ <;> norm_num [takeDamage, deadActor]

/-- C5 (amended): calling takeDamage on a dead actor is a no-op returning
failure whenever the actor's invincibility counter is still positive
(which the code guarantees for the INVINCIBILITY_DURATION ticks following
the killing blow, since takeDamage sets invincible = 30 as it kills);
takeDamage itself never tests the dead flag. -/
theorem takeDamage_dead_invincible_noop (a : Actor) (amount knockbackX : ℚ)
    (_hd : a.dead = true) (hi : a.invincible > 0) :
    takeDamage a amount knockbackX = (false, a) := by
  simp [takeDamage, hi]

/-- A dead actor still inside its post-death invincibility window. -/
def deadActorInv : Actor := { deadActor with invincible := 30 }

/-- Owner tag of a projectile (game.js line 1004). -/
inductive Owner where
  | player
  | enemy
deriving DecidableEq

/-- Projectile state (game.js lines 997–1008). -/
structure Projectile where
  x : ℚ
  y : ℚ
  vx : ℚ
  vy : ℚ
  damage : ℚ
  owner : Owner
  w : ℚ
  h : ℚ
  dead : Bool

/-- Projectile constructor (game.js lines 998–1008): fixed 10×6 box. -/
def mkProjectile (x y vx vy damage : ℚ) (owner : Owner) : Projectile :=
  { x := x, y := y, vx := vx, vy := vy, damage := damage, owner := owner,
    w := 10, h := 6, dead := false }

/-- Zombie type tag (game.js setupType, lines 691–725; Boss passes the
tag `boss`, which matches no setupType case). -/
inductive ZType where
  | basic
  | fast
  | tank
  | ranged
  | boss
deriving DecidableEq

/-- Zombie AI state (game.js: idle, walk, attack, hurt). -/
inductive ZState where
  | idle
  | walk
  | attack
  | hurt
deriving DecidableEq

/-- Player state (game.js lines 366–387) restricted to the fields the
modelled steps read: the Actor part plus energy/combo bookkeeping and the
blocking flag set from input each tick. -/
structure Player extends Actor where
  maxHealth : ℚ
  maxEnergy : ℚ
  energy : ℚ
  combo : ℕ
  comboTimer : ℚ
  blocking : Bool

/-- Player.getBounds, inherited from Entity. -/
def playerBounds (p : Player) : Rect := Actor.getBounds p.toActor

/-- Player damage goes through the inherited Entity.takeDamage. -/
def playerTakeDamage (p : Player) (amount knockbackX : ℚ) : Bool × Player :=
  let r := takeDamage p.toActor amount knockbackX
  (r.1, { p with toActor := r.2 })

/-- Zombie state (game.js lines 680–689). -/
structure Zombie extends Actor where
  type : ZType
  maxHealth : ℚ
  speed : ℚ
  damage : ℚ
  attackCooldown : ℚ
  detectRange : ℚ
  attackRange : ℚ
  state : ZState

/-- Zombie.setupType (game.js lines 691–725): per-type stats, then
`health = maxHealth` after the switch. -/
def setupType (z : Zombie) : Zombie :=
  let z :=
    match z.type with
    | ZType.basic => { z with maxHealth := 30, speed := 4/5, damage := 10 }
    | ZType.fast => { z with maxHealth := 20, speed := 5/2, damage := 8,
                             w := 25, h := 40, y := z.y + 10 }
    | ZType.tank => { z with maxHealth := 80, speed := 2/5, damage := 20,
                             w := 40, h := 55 }
    | ZType.ranged => { z with maxHealth := 25, speed := 1, damage := 15,
                               attackRange := 150 }
    | ZType.boss => z
  { z with health := z.maxHealth }

/-- Zombie constructor (game.js lines 681–689).  Source order matters:
`setupType()` runs first, then the constructor assigns
`attackCooldown = 0; detectRange = 200; attackRange = 40;` — overwriting
the attackRange = 150 that setupType gave the `ranged` type. -/
def mkZombie (x y : ℚ) (type : ZType) : Zombie :=
  let z : Zombie :=
    { x := x, y := y, w := 30, h := 50, vx := 0, vy := 0, facing := 1,
      grounded := false, dead := false, invincible := 0, health := 0,
      animFrame := 0, animTimer := 0,
      type := type, maxHealth := 0, speed := 0, damage := 0,
      attackCooldown := 0, detectRange := 0, attackRange := 0,
      state := ZState.idle }
  let z := setupType z
  { z with attackCooldown := 0, detectRange := 200, attackRange := 40,
           state := ZState.idle }

/-- Zombie.takeDamage override (game.js lines 816–822): delegates to
Entity.takeDamage and enters the `hurt` state on success. -/
def zombieTakeDamage (z : Zombie) (amount knockbackX : ℚ) : Bool × Zombie :=
  let r := takeDamage z.toActor amount knockbackX
  (r.1, { z with toActor := r.2,
                 state := if r.1 then ZState.hurt else z.state })

/-- Outputs of one zombie melee attack: the updated pair, the damage
amount actually passed to `player.takeDamage` (none when the hitbox
missed), and the shake / blood-particle side effects. -/
structure MeleeResult where
  zombie : Zombie
  player : Player
  attempted : Option ℚ
  shake : ℚ
  particles : ℕ

/-- The fixed 30×40 melee hitbox in front of the body (game.js 768–773). -/
def zombieMeleeHitbox (z : Zombie) : Rect :=
  { x := if z.facing > 0 then z.x + z.w else z.x - 30,
    y := z.y, w := 30, h := 40 }

/-- Zombie.attack (game.js lines 763–799): set cooldown 60 and state
`attack`; if the hitbox overlaps the player, compute the damage — reduced
to `Math.floor(damage * 0.3)` when the player is blocking — and feed it to
the player's takeDamage; on success shake 5 and 5 blood particles. -/
def zombieAttack (z : Zombie) (p : Player) : MeleeResult :=
  let z' := { z with attackCooldown := 60, state := ZState.attack }
  if rectIntersect (zombieMeleeHitbox z') (playerBounds p) then
    let damage := if p.blocking then ((⌊z'.damage * (3/10)⌋ : ℤ) : ℚ) else z'.damage
    let r := playerTakeDamage p damage (z'.facing * 3)
    if r.1 then
      { zombie := z', player := r.2, attempted := some damage, shake := 5,
        particles := 5 }
    else
      { zombie := z', player := r.2, attempted := some damage, shake := 0,
        particles := 0 }
  else
    { zombie := z', player := p, attempted := none, shake := 0, particles := 0 }

/-- The ternary `distToPlayer > 0 ? 1 : -1` used for facing. -/
def dirTowards (d : ℚ) : ℚ := if d > 0 then 1 else -1

/-- The ternary `a > c ? 1 : -1` used for knockback direction. -/
def dirGt (a c : ℚ) : ℚ := if a > c then 1 else -1

/-- The main AI branch of Zombie.update (game.js lines 735–752). -/
def zombieAI (z : Zombie) (p : Player) : MeleeResult :=
  let distToPlayer := p.x - z.x
  let absDist := |distToPlayer|
  if absDist < z.detectRange then
    if absDist > z.attackRange then
      { zombie := { z with facing := dirTowards distToPlayer,
                           vx := dirTowards distToPlayer * z.speed,
                           state := ZState.walk },
        player := p, attempted := none, shake := 0, particles := 0 }
    else if z.attackCooldown ≤ 0 then
      zombieAttack z p
    else
      { zombie := { z with vx := z.vx * (1/2), state := ZState.idle },
        player := p, attempted := none, shake := 0, particles := 0 }
  else
    { zombie := { z with vx := z.vx * (1/2), state := ZState.idle },
      player := p, attempted := none, shake := 0, particles := 0 }

/-- The cooldown decrement at the top of Zombie.update (game.js 730). -/
def cooldownTick (z : Zombie) : Zombie :=
  if z.attackCooldown > 0 then { z with attackCooldown := z.attackCooldown - 1 }
  else z

/-- Zombie.updateAnimation (game.js lines 824–830). -/
def zombieUpdateAnimation (a : Actor) : Actor :=
  let a := { a with animTimer := a.animTimer + 1 }
  if a.animTimer > 8 then { a with animTimer := 0, animFrame := (a.animFrame + 1) % 4 }
  else a

/-- Outputs of a full Zombie.update tick. -/
structure ZombieStepResult where
  zombie : Zombie
  player : Player
  attempted : Option ℚ
  shake : ℚ
  particles : ℕ
  projectileFired : Option Projectile

/-- Zombie.update (game.js lines 727–761): early-return when dead;
decrement the attack cooldown; run the AI branch; then the ranged check
`type === 'ranged' && absDist < attackRange && attackCooldown <= 0`
(reading the cooldown as left by the AI branch); finally physics and
animation. -/
def zombieUpdate (z : Zombie) (p : Player) : ZombieStepResult :=
  if z.dead then
    { zombie := z, player := p, attempted := none, shake := 0, particles := 0,
      projectileFired := none }
  else
    let z1 := cooldownTick z
    let absDist := |p.x - z1.x|
    let r := zombieAI z1 p
    let z2 :=
      if r.zombie.type = ZType.ranged ∧ absDist < r.zombie.attackRange ∧
          r.zombie.attackCooldown ≤ 0 then
        { r.zombie with attackCooldown := 90, state := ZState.attack }
      else r.zombie
    let fired :=
      if r.zombie.type = ZType.ranged ∧ absDist < r.zombie.attackRange ∧
          r.zombie.attackCooldown ≤ 0 then
        some (mkProjectile (r.zombie.x + r.zombie.w / 2) (r.zombie.y + 10)
          (r.zombie.facing * 4) 0 r.zombie.damage Owner.enemy)
      else none
    { zombie := { z2 with toActor := zombieUpdateAnimation (updatePhysics z2.toActor) },
      player := r.player, attempted := r.attempted, shake := r.shake,
      particles := r.particles, projectileFired := fired }

/-- The AI branch always leaves the zombie either with its cooldown
untouched in a state where the ranged-fire test cannot pass, or freshly
reset to 60 by the melee attack — so the conjunction the ranged check
tests is never satisfied afterwards. -/
lemma zombieAI_noFire (z : Zombie) (p : Player)
    (hr : z.attackRange ≤ z.detectRange) :
    ¬ ((zombieAI z p).zombie.type = ZType.ranged ∧
       |p.x - z.x| < (zombieAI z p).zombie.attackRange ∧
       (zombieAI z p).zombie.attackCooldown ≤ 0) := by
  have hz : (zombieAttack z p).zombie
      = { z with attackCooldown := 60, state := ZState.attack } := by
    simp only [zombieAttack]
    split_ifs <;> rfl
  simp only [zombieAI]
  split_ifs with h1 h2 h3
  · rintro ⟨-, hlt, -⟩
    simp only [MeleeResult.zombie] at hlt
    linarith
  · rw [hz]
    rintro ⟨-, -, hc⟩
    norm_num at hc
  · rintro ⟨-, -, hc⟩
    simp only [MeleeResult.zombie] at hc
    exact h3 hc
  · rintro ⟨-, hlt, -⟩
    simp only [MeleeResult.zombie] at hlt
    exact h1 (lt_of_lt_of_le hlt hr)

/-- C2: a ranged zombie never actually fires a projectile.  Whenever the
horizontal distance is below the attack range and the cooldown has
elapsed, the melee branch of Zombie.update runs first and resets the
cooldown to 60, so the subsequent ranged-fire test (which re-reads the
cooldown) always fails; this holds for any zombie whose attack range does
not exceed its detection range, which the constructor guarantees
(attackRange 40 ≤ detectRange 200 — note the constructor overwrites the
ranged type's attackRange 150 with 40). -/
theorem rangedZombie_neverFiresProjectile (z : Zombie) (p : Player)
    (hr : z.attackRange ≤ z.detectRange) :
    (zombieUpdate z p).projectileFired = none := by
  have hr1 : (cooldownTick z).attackRange ≤ (cooldownTick z).detectRange := by
    unfold cooldownTick
    split_ifs <;> simpa using hr
  have key := zombieAI_noFire (cooldownTick z) p hr1
  simp only [zombieUpdate, if_neg key]
  split_ifs with hdead <;> rfl

/-- A ranged zombie freshly spawned at x = 100 on the ground line. -/
def rangedZ : Zombie := mkZombie 100 330 ZType.ranged

/-- A concrete player standing at x = 130 (horizontal distance 30: inside
both the 40 attack range and the 200 detection range of `rangedZ`, whose
cooldown is 0). -/
def playerB : Player :=
  { x := 130, y := 330, w := 30, h := 50, vx := 0, vy := 0, facing := -1,
    grounded := true, dead := false, invincible := 0, health := 100,
    animFrame := 0, animTimer := 0,
    maxHealth := 100, maxEnergy := 100, energy := 100, combo := 0,
    comboTimer := 0, blocking := false }

/-- Witness for C2 at the failing input: the ranged zombie is in range
with an elapsed cooldown, yet no projectile is produced. -/
theorem rangedZombie_neverFiresProjectile_witness :
    (zombieUpdate rangedZ playerB).projectileFired = none :=
  rangedZombie_neverFiresProjectile rangedZ playerB
    (by norm_num [rangedZ, mkZombie, setupType])

/-- When the melee hitbox overlaps the player, Zombie.attack feeds the
player's takeDamage with the (possibly block-mitigated) damage and the
knockback facing × 3. -/
lemma zombieAttack_player_hit (z : Zombie) (p : Player)
    (hhit : rectIntersect (zombieMeleeHitbox z) (playerBounds p) = true) :
    (zombieAttack z p).player =
      (playerTakeDamage p
        (if p.blocking then ((⌊z.damage * (3/10)⌋ : ℤ) : ℚ) else z.damage)
        (z.facing * 3)).2 := by
  have hbox : zombieMeleeHitbox
      { z with attackCooldown := 60, state := ZState.attack }
      = zombieMeleeHitbox z := rfl
  simp only [zombieAttack, hbox, hhit, if_true]
  split_ifs <;> rfl

/-- C8: a basic zombie's landed melee attack deals floor(10 × 0.3) = 3
damage to a blocking (non-invincible) player and the full 10 to a
non-blocking one. -/
theorem zombieAttack_blockMitigation (z : Zombie) (p : Player)
    (hdmg : z.damage = 10)
    (hhit : rectIntersect (zombieMeleeHitbox z) (playerBounds p) = true)
    (hinv : ¬ p.invincible > 0) :
    (p.blocking = true → (zombieAttack z p).player.health = p.health - 3) ∧
    (p.blocking = false → (zombieAttack z p).player.health = p.health - 10) := by
  have hp := zombieAttack_player_hit z p hhit
  constructor <;> intro hb
  · rw [hp]
    have hd : (if p.blocking then ((⌊z.damage * (3/10)⌋ : ℤ) : ℚ) else z.damage)
        = 3 := by
      simp only [hb, hdmg, if_true]
      norm_num
    rw [hd]
    simp only [playerTakeDamage, takeDamage, if_neg hinv]
    split_ifs <;> simp
  · rw [hp]
    have hd : (if p.blocking then ((⌊z.damage * (3/10)⌋ : ℤ) : ℚ) else z.damage)
        = 10 := by
      simp only [hb, hdmg, if_false, Bool.false_eq_true]
    rw [hd]
    simp only [playerTakeDamage, takeDamage, if_neg hinv]
    split_ifs <;> simp

/-- A blocking player adjacent to a basic zombie's hitbox. -/
def playerC : Player := { playerB with blocking := true }

/-- A basic zombie at x = 100 facing right; its hitbox spans x ∈ [130,160]. -/
def basicZ : Zombie := mkZombie 100 330 ZType.basic

/-- Witness for C8 at concrete actors: the blocking player takes 3, the
non-blocking one takes 10. -/
theorem zombieAttack_blockMitigation_witness :
    (zombieAttack basicZ playerC).player.health = 97 ∧
    (zombieAttack basicZ playerB).player.health = 90 := by
  have hhitC : rectIntersect (zombieMeleeHitbox basicZ) (playerBounds playerC) = true := by
    simp only [rectIntersect, zombieMeleeHitbox, playerBounds, Actor.getBounds,
      Bool.not_eq_true', Bool.or_eq_false_iff, decide_eq_false_iff_not, not_lt]
    norm_num [basicZ, playerC, playerB, mkZombie, setupType]
  have hhitB : rectIntersect (zombieMeleeHitbox basicZ) (playerBounds playerB) = true := by
    simp only [rectIntersect, zombieMeleeHitbox, playerBounds, Actor.getBounds,
      Bool.not_eq_true', Bool.or_eq_false_iff, decide_eq_false_iff_not, not_lt]
    norm_num [basicZ, playerB, mkZombie, setupType]
  constructor
  · have h := (zombieAttack_blockMitigation basicZ playerC
      (by norm_num [basicZ, mkZombie, setupType]) hhitC
      (by norm_num [playerC, playerB])).1 rfl
    rw [h]; norm_num [playerC, playerB]
  · have h := (zombieAttack_blockMitigation basicZ playerB
      (by norm_num [basicZ, mkZombie, setupType]) hhitB
      (by norm_num [playerB])).2 rfl
    rw [h]; norm_num [playerB]

/-- Witness for C5's amended theorem: a dead actor with invincible = 30 is
left untouched and the call reports failure. -/
theorem takeDamage_dead_invincible_noop_witness :
    takeDamage deadActorInv 10 2 = (false, deadActorInv) :=
  takeDamage_dead_invincible_noop deadActorInv 10 2 rfl
    (by norm_num [deadActorInv, deadActor])

/-- Boss state (game.js lines 886–898): a `boss`-typed zombie plus phase
and a separate special-attack cooldown. -/
structure Boss extends Zombie where
  phase : ℕ
  specialCooldown : ℚ

/-- Boss constructor (game.js lines 887–898): overrides size/stats after
the Zombie constructor ran, phase 1, specialCooldown 0. -/
def mkBoss (x y : ℚ) : Boss :=
  let z := mkZombie x y ZType.boss
  { toZombie := { z with w := 60, h := 80, maxHealth := 300, health := 300,
                         speed := 3/5, damage := 25 },
    phase := 1, specialCooldown := 0 }

/-- The damage radius inside Boss.groundSmash (game.js line 926). -/
def bossSmashRadius : ℚ := 120

/-- The player-proximity range that triggers the boss special
(game.js line 916). -/
def bossSpecialTrigger : ℚ := 100

/-- The phase transition at the top of Boss.update (game.js lines
903–909): when the health ratio drops below 0.5 in phase 1, move to phase
2, raise speed to 1 and reset the melee cooldown. -/
def bossPhaseStep (b : Boss) : Boss :=
  if b.health / b.maxHealth < 1/2 ∧ b.phase = 1 then
    { b with phase := 2, speed := 1, attackCooldown := 0 }
  else b

/-- Boss damage goes through the inherited Zombie.takeDamage. -/
def bossTakeDamage (b : Boss) (amount knockbackX : ℚ) : Bool × Boss :=
  let r := zombieTakeDamage b.toZombie amount knockbackX
  (r.1, { b with toZombie := r.2 })

/-- The two basic minions the smash spawns in phase 2 (game.js 946–949). -/
def smashMinions (b : Boss) : List Zombie :=
  if b.phase = 2 then
    [mkZombie (b.x - 50) (GROUND_Y - 50) ZType.basic,
     mkZombie (b.x + b.w + 50) (GROUND_Y - 50) ZType.basic]
  else []

/-- Outputs of one ground smash. -/
structure SmashResult where
  boss : Boss
  player : Player
  attempted : Option ℚ
  shake : ℚ
  particles : ℕ
  minions : List Zombie

/-- Boss.groundSmash (game.js lines 921–950): reset the special cooldown
to 180; if the player is within the 120 radius, call takeDamage with the
full 20 and set shake 15; always spawn 20 dust particles; in phase 2,
spawn two flanking basic zombies. -/
def groundSmash (b : Boss) (p : Player) : SmashResult :=
  let b' := { b with specialCooldown := 180 }
  let dist := |p.x - b'.x|
  if dist < bossSmashRadius then
    let r := playerTakeDamage p 20 (dirGt p.x b'.x * 8)
    { boss := b', player := r.2, attempted := some 20, shake := 15,
      particles := 20, minions := smashMinions b' }
  else
    { boss := b', player := p, attempted := none, shake := 0,
      particles := 20, minions := smashMinions b' }

/-- A ground smash always emits its 20 dust particles. -/
lemma groundSmash_particles (b : Boss) (p : Player) :
    (groundSmash b p).particles = 20 := by
  simp only [groundSmash]
  split_ifs <;> rfl

/-- Inside the 120 radius the smash always feeds 20 damage to the player
and sets shake 15. -/
lemma groundSmash_hit (b : Boss) (p : Player)
    (hd : |p.x - b.x| < bossSmashRadius) :
    (groundSmash b p).attempted = some 20 ∧ (groundSmash b p).shake = 15 := by
  simp [groundSmash, if_pos hd]

/-- Outputs of one full Boss.update tick; the melee-path outputs come from
the inherited Zombie.update, the smash-path outputs from groundSmash. -/
structure BossStepResult where
  boss : Boss
  player : Player
  meleeAttempted : Option ℚ
  meleeShake : ℚ
  meleeParticles : ℕ
  projectileFired : Option Projectile
  smashed : Bool
  smashAttempted : Option ℚ
  smashShake : ℚ
  smashParticles : ℕ
  minions : List Zombie

/-- The special-attack check at the end of Boss.update (game.js lines
915–918): execute the ground smash when the special cooldown has elapsed
and the player is within 100 horizontally. -/
def bossSpecialCheck (b3 : Boss) (p1 : Player) (zr : ZombieStepResult) :
    BossStepResult :=
  if b3.specialCooldown ≤ 0 ∧ |p1.x - b3.x| < bossSpecialTrigger then
    let sr := groundSmash b3 p1
    { boss := sr.boss, player := sr.player, meleeAttempted := zr.attempted,
      meleeShake := zr.shake, meleeParticles := zr.particles,
      projectileFired := zr.projectileFired, smashed := true,
      smashAttempted := sr.attempted, smashShake := sr.shake,
      smashParticles := sr.particles, minions := sr.minions }
  else
    { boss := b3, player := p1, meleeAttempted := zr.attempted,
      meleeShake := zr.shake, meleeParticles := zr.particles,
      projectileFired := zr.projectileFired, smashed := false,
      smashAttempted := none, smashShake := 0, smashParticles := 0,
      minions := [] }

/-- Boss.update (game.js lines 900–919): early-return when dead; phase
transition; decrement the special cooldown; run the inherited
Zombie.update; then the special-attack check. -/
def bossUpdate (b : Boss) (p : Player) : BossStepResult :=
  if b.dead then
    { boss := b, player := p, meleeAttempted := none, meleeShake := 0,
      meleeParticles := 0, projectileFired := none, smashed := false,
      smashAttempted := none, smashShake := 0, smashParticles := 0,
      minions := [] }
  else
    let b1 := bossPhaseStep b
    let b2 := if b1.specialCooldown > 0 then
        { b1 with specialCooldown := b1.specialCooldown - 1 }
      else b1
    let zr := zombieUpdate b2.toZombie p
    bossSpecialCheck { b2 with toZombie := zr.zombie } zr.player zr

/-- The special check never touches the phase. -/
lemma bossSpecialCheck_phase (b3 : Boss) (p1 : Player) (zr : ZombieStepResult) :
    (bossSpecialCheck b3 p1 zr).boss.phase = b3.phase := by
  simp only [bossSpecialCheck, groundSmash]
  split_ifs <;> rfl

/-- Whenever the special check fires the smash, the player was within the
trigger range (100), hence within the smash radius (120): the area damage
of 20 is always attempted, shake is 15 and 20 particles spawn. -/
lemma bossSpecialCheck_smash (b3 : Boss) (p1 : Player) (zr : ZombieStepResult) :
    (bossSpecialCheck b3 p1 zr).smashed = true →
    (bossSpecialCheck b3 p1 zr).smashAttempted = some 20 ∧
    (bossSpecialCheck b3 p1 zr).smashShake = 15 ∧
    (bossSpecialCheck b3 p1 zr).smashParticles = 20 := by
  have hlt : bossSpecialTrigger < bossSmashRadius := by
    norm_num [bossSpecialTrigger, bossSmashRadius]
  simp only [bossSpecialCheck]
  split_ifs with h
  · rintro -
    exact ⟨(groundSmash_hit b3 p1 (lt_trans h.2 hlt)).1,
           (groundSmash_hit b3 p1 (lt_trans h.2 hlt)).2,
           groundSmash_particles b3 p1⟩
  · intro hfalse
    simp at hfalse

/-- The phase after a full boss tick is exactly the phase after the
transition check: nothing later in the tick writes it. -/
lemma bossUpdate_phase (b : Boss) (p : Player) :
    (bossUpdate b p).boss.phase
      = if b.dead then b.phase else (bossPhaseStep b).phase := by
  simp only [bossUpdate]
  split_ifs with h1 h2
  · rfl
  · rw [bossSpecialCheck_phase]
  · rw [bossSpecialCheck_phase]

/-- C6: with phase 1 and health ratio below 1/2 the transition fires (and
a live boss ends the tick in phase 2 with speed 1 and melee cooldown
reset); with phase 1 and ratio at least 1/2 nothing changes; once in
phase 2 every further tick stays in phase 2; and taking damage never
changes the phase. -/
theorem bossPhase_spec (b : Boss) (p : Player) (amount knockbackX : ℚ) :
    (b.phase = 1 → b.health / b.maxHealth < 1/2 →
      bossPhaseStep b = { b with phase := 2, speed := 1, attackCooldown := 0 } ∧
      (b.dead = false → (bossUpdate b p).boss.phase = 2)) ∧
    (b.phase = 1 → ¬ b.health / b.maxHealth < 1/2 →
      bossPhaseStep b = b ∧ (bossUpdate b p).boss.phase = 1) ∧
    (b.phase = 2 → (bossUpdate b p).boss.phase = 2) ∧
    ((bossTakeDamage b amount knockbackX).2.phase = b.phase) := by
  refine ⟨?_, ?_, ?_, rfl⟩
  · intro h1 hr
    have hstep : bossPhaseStep b
        = { b with phase := 2, speed := 1, attackCooldown := 0 } := by
      unfold bossPhaseStep
      rw [if_pos ⟨hr, h1⟩]
    refine ⟨hstep, ?_⟩
    intro hd
    rw [bossUpdate_phase, if_neg (by simp [hd]), hstep]
  · intro h1 hr
    have hcond : ¬ (b.health / b.maxHealth < 1/2 ∧ b.phase = 1) := by
      rintro ⟨hb, -⟩
      exact hr hb
    have hstep : bossPhaseStep b = b := by
      unfold bossPhaseStep
      rw [if_neg hcond]
    refine ⟨hstep, ?_⟩
    rw [bossUpdate_phase]
    split_ifs
    · exact h1
    · rw [hstep]; exact h1
  · intro h2
    have hstep : (bossPhaseStep b).phase = 2 := by
      simp only [bossPhaseStep]
      split_ifs with hc
      · rfl
      · exact h2
    rw [bossUpdate_phase]
    split_ifs
    · exact h2
    · exact hstep

/-- A freshly spawned boss whose health has been brought just below half
(149 of 300). -/
def bossLow : Boss := { mkBoss 600 300 with health := 149 }

/-- A freshly spawned boss whose health is just above half (151 of 300). -/
def bossHigh : Boss := { mkBoss 600 300 with health := 151 }

/-- Witness for C6 at the scenario inputs: at 149/300 the tick flips the
phase to 2, at 151/300 it stays 1. -/
theorem bossPhase_spec_witness :
    (bossUpdate bossLow playerB).boss.phase = 2 ∧
    (bossUpdate bossHigh playerB).boss.phase = 1 := by
  constructor
  · exact ((bossPhase_spec bossLow playerB 0 0).1 rfl
      (by norm_num [bossLow, mkBoss, mkZombie, setupType])).2 rfl
  · exact ((bossPhase_spec bossHigh playerB 0 0).2.1 rfl
      (by norm_num [bossHigh, mkBoss, mkZombie, setupType])).2

/-- C7 counterexample: the smash damage radius (120) is wider than the
trigger range (100), not strictly smaller as the claim states. -/
theorem bossSmashRadius_not_tighter :
    bossSmashRadius = 120 ∧ bossSpecialTrigger = 100 ∧
    ¬ bossSmashRadius < bossSpecialTrigger := by
  refine ⟨rfl, rfl, ?_⟩
  norm_num [bossSmashRadius, bossSpecialTrigger]

/-- C7 (amended): a ground smash resets the special cooldown to 180,
always spawns 20 particles, spawns exactly two basic minions iff the boss
is in phase 2, and applies the 20 area damage whenever the player is
within the smash radius (120) — which is wider than the 100 trigger
range, so every smash triggered by Boss.update damages the player
(no tighter inner radius exists). -/
theorem bossGroundSmash_spec (b : Boss) (p : Player) :
    ((groundSmash b p).boss.specialCooldown = 180) ∧
    ((groundSmash b p).particles = 20) ∧
    ((groundSmash b p).minions.length = if b.phase = 2 then 2 else 0) ∧
    (|p.x - b.x| < bossSmashRadius →
      (groundSmash b p).attempted = some 20 ∧ (groundSmash b p).shake = 15) ∧
    ((bossUpdate b p).smashed = true →
      (bossUpdate b p).smashAttempted = some 20 ∧
      (bossUpdate b p).smashShake = 15 ∧
      (bossUpdate b p).smashParticles = 20) := by
  refine ⟨?_, ?_, ?_, groundSmash_hit b p, ?_⟩
  · simp only [groundSmash]
    split_ifs <;> rfl
  · simp only [groundSmash]
    split_ifs <;> rfl
  · simp only [groundSmash, smashMinions]
    split_ifs <;> simp
  · simp only [bossUpdate]
    split_ifs with h1 h2
    · intro hfalse
      simp at hfalse
    · exact bossSpecialCheck_smash _ _ _
    · exact bossSpecialCheck_smash _ _ _

/-- A phase-2 boss standing at x = 600. -/
def bossP2 : Boss := { mkBoss 600 300 with phase := 2 }

/-- A non-blocking player 50 to the right of `bossP2`. -/
def playerD : Player := { playerB with x := 650 }

/-- Witness for C7's amended theorem at concrete inputs: the smash on
`bossP2` against `playerD` (distance 50 < 120) attempts the full 20,
shakes 15, leaves cooldown 180, 20 particles and two minions. -/
theorem bossGroundSmash_spec_witness :
    (groundSmash bossP2 playerD).boss.specialCooldown = 180 ∧
    (groundSmash bossP2 playerD).particles = 20 ∧
    (groundSmash bossP2 playerD).minions.length = 2 ∧
    (groundSmash bossP2 playerD).attempted = some 20 ∧
    (groundSmash bossP2 playerD).shake = 15 := by
  have h := bossGroundSmash_spec bossP2 playerD
  have hd : |playerD.x - bossP2.x| < bossSmashRadius := by
    norm_num [playerD, playerB, bossP2, mkBoss, mkZombie, setupType,
      bossSmashRadius]
  have hmin : (groundSmash bossP2 playerD).minions.length = 2 := by
    rw [h.2.2.1]
    norm_num [bossP2]
  exact ⟨h.1, h.2.1, hmin, (h.2.2.2.1 hd).1, (h.2.2.2.1 hd).2⟩

/-- Projectile.update (game.js lines 1010–1018): integrate position, then
gravity for enemy-owned projectiles. -/
def projectileUpdate (pr : Projectile) : Projectile :=
  let pr := { pr with x := pr.x + pr.vx, y := pr.y + pr.vy }
  if pr.owner = Owner.enemy then { pr with vy := pr.vy + 1/10 } else pr

/-- The projectile's bounding box as used by the collision check in
Game.update (game.js line 1367). -/
def projectileBounds (pr : Projectile) : Rect :=
  { x := pr.x, y := pr.y, w := pr.w, h := pr.h }

/-- Outputs of the per-projectile filter body. -/
structure ProjectileStepResult where
  player : Player
  keep : Bool
  hitSound : Bool

/-- The per-projectile body of the filter in Game.update (game.js lines
1363–1376): move the projectile; if enemy-owned and touching the player,
call the player's takeDamage with the projectile's FULL damage (no
blocking check) and drop the projectile; otherwise keep it while within
100 of the visible window. -/
def projectileFilterStep (pr : Projectile) (pl : Player) (cameraX screenW : ℚ) :
    ProjectileStepResult :=
  let pr := projectileUpdate pr
  if pr.owner = Owner.enemy ∧
      rectIntersect (projectileBounds pr) (playerBounds pl) = true then
    let r := playerTakeDamage pl pr.damage (if pr.vx > 0 then (3 : ℚ) else -3)
    { player := r.2, keep := false, hitSound := r.1 }
  else
    { player := pl,
      keep := decide (pr.x > cameraX - 100) && decide (pr.x < cameraX + screenW + 100),
      hitSound := false }

/-- Moving a projectile never changes its owner tag. -/
lemma projectileUpdate_owner (pr : Projectile) :
    (projectileUpdate pr).owner = pr.owner := by
  simp only [projectileUpdate]
  split_ifs <;> rfl

/-- Moving a projectile never changes its damage. -/
lemma projectileUpdate_damage (pr : Projectile) :
    (projectileUpdate pr).damage = pr.damage := by
  simp only [projectileUpdate]
  split_ifs <;> rfl

/-- C10: an enemy projectile that hits a non-invincible player and the
boss ground smash both pass their full damage to takeDamage — the result
does not depend on the blocking flag, which is universally quantified
here — while the zombie melee path is the one place the ×0.3 floored
block mitigation is applied. -/
theorem fullDamage_ignoresBlocking (pr : Projectile) (pl : Player)
    (cameraX screenW : ℚ) (b : Boss) (q : Player) (z : Zombie) (s : Player) :
    (pr.owner = Owner.enemy →
      rectIntersect (projectileBounds (projectileUpdate pr)) (playerBounds pl)
        = true →
      ¬ pl.invincible > 0 →
      (projectileFilterStep pr pl cameraX screenW).player.health
        = pl.health - pr.damage) ∧
    (¬ q.invincible > 0 → |q.x - b.x| < bossSmashRadius →
      (groundSmash b q).player.health = q.health - 20) ∧
    (rectIntersect (zombieMeleeHitbox z) (playerBounds s) = true →
      ¬ s.invincible > 0 → s.blocking = true →
      (zombieAttack z s).player.health
        = s.health - ((⌊z.damage * (3/10)⌋ : ℤ) : ℚ)) := by
  refine ⟨?_, ?_, ?_⟩
  · intro how hit hinv
    have hcond : (projectileUpdate pr).owner = Owner.enemy ∧
        rectIntersect (projectileBounds (projectileUpdate pr)) (playerBounds pl)
          = true := ⟨(projectileUpdate_owner pr).trans how, hit⟩
    simp only [projectileFilterStep, if_pos hcond, playerTakeDamage, takeDamage,
      if_neg hinv]
    split_ifs <;> simp [projectileUpdate_damage]
  · intro hinv hd
    simp only [groundSmash, if_pos hd, playerTakeDamage, takeDamage, if_neg hinv]
    split_ifs <;> simp
  · intro hhit hinv hblock
    rw [zombieAttack_player_hit z s hhit]
    simp only [hblock, if_true]
    simp only [playerTakeDamage, takeDamage, if_neg hinv]
    split_ifs <;> simp

/-- An enemy projectile about to cross into `playerC`'s bounds. -/
def projE : Projectile := mkProjectile 130 340 4 0 15 Owner.enemy

/-- Witness for C10 at concrete inputs, all with a BLOCKING player: the
projectile still costs the full 15, the smash the full 20, while the
melee path costs only floor(10 × 0.3) = 3. -/
theorem fullDamage_ignoresBlocking_witness :
    (projectileFilterStep projE playerC 0 800).player.health = 85 ∧
    (groundSmash bossP2 { playerD with blocking := true }).player.health = 80 ∧
    (zombieAttack basicZ playerC).player.health = 97 := by
  have h := fullDamage_ignoresBlocking projE playerC 0 800 bossP2
    { playerD with blocking := true } basicZ playerC
  refine ⟨?_, ?_, ?_⟩
  · have hhit : rectIntersect (projectileBounds (projectileUpdate projE))
        (playerBounds playerC) = true := by
      simp only [rectIntersect, projectileBounds, projectileUpdate, playerBounds,
        Actor.getBounds, mkProjectile, projE, Bool.not_eq_true',
        Bool.or_eq_false_iff, decide_eq_false_iff_not, not_lt]
      norm_num [playerC, playerB]
    have := h.1 rfl hhit (by norm_num [playerC, playerB])
    rw [this]
    norm_num [playerC, playerB, projE, mkProjectile]
  · have := h.2.1 (by norm_num [playerD, playerB])
      (by norm_num [playerD, playerB, bossP2, mkBoss, mkZombie, setupType,
        bossSmashRadius])
    rw [this]
    norm_num [playerD, playerB]
  · have hhit : rectIntersect (zombieMeleeHitbox basicZ) (playerBounds playerC)
        = true := by
      simp only [rectIntersect, zombieMeleeHitbox, playerBounds, Actor.getBounds,
        Bool.not_eq_true', Bool.or_eq_false_iff, decide_eq_false_iff_not, not_lt]
      norm_num [basicZ, playerC, playerB, mkZombie, setupType]
    have := h.2.2 hhit (by norm_num [playerC, playerB]) rfl
    rw [this]
    norm_num [playerC, playerB, basicZ, mkZombie, setupType]

/-- The per-level progression state read by the boss-spawn and portal
checks of Game.update. -/
structure DirectorState where
  level : ℕ
  enemiesToSpawn : ℕ
  enemiesSpawned : ℕ
  enemiesAlive : ℕ
  bossSpawned : Bool
  portal : Option (ℚ × ℚ)

/-- The boss-spawn and portal-activation checks of Game.update (game.js
lines 1288–1299), in source order: spawn the boss when the quota is met on
a boss level (level % 3 = 0) with the field clear and no boss yet; then
open the portal at (LEVEL_LENGTH - 150, GROUND_Y - 80) and emit the portal
cue when the quota is met, the field is clear, no portal exists AND
bossSpawned is still false.  Returns the new state and whether the portal
cue fired. -/
def directorStep (g : DirectorState) : DirectorState × Bool :=
  let g :=
    if g.enemiesSpawned ≥ g.enemiesToSpawn ∧ g.bossSpawned = false ∧
        g.level % 3 = 0 ∧ g.enemiesAlive = 0 then
      { g with bossSpawned := true, enemiesAlive := g.enemiesAlive + 1 }
    else g
  if g.enemiesSpawned ≥ g.enemiesToSpawn ∧ g.enemiesAlive = 0 ∧
      g.portal = none ∧ g.bossSpawned = false then
    ({ g with portal := some (LEVEL_LENGTH - 150, GROUND_Y - 80) }, true)
  else (g, false)

/-- C1: the portal check requires bossSpawned = false and no tick ever
clears that flag, so once the boss of a boss-eligible level has spawned —
in particular after it has been defeated and the field is clear — the
portal never opens and the portal cue never fires. -/
theorem portal_never_after_boss (g : DirectorState) (hb : g.bossSpawned = true) :
    (directorStep g).1.portal = g.portal ∧
    (directorStep g).1.bossSpawned = true ∧
    (directorStep g).2 = false := by
  have h1 : ¬ (g.enemiesSpawned ≥ g.enemiesToSpawn ∧ g.bossSpawned = false ∧
      g.level % 3 = 0 ∧ g.enemiesAlive = 0) := by
    rintro ⟨-, hf, -, -⟩
    simp [hb] at hf
  have h2 : ¬ (g.enemiesSpawned ≥ g.enemiesToSpawn ∧ g.enemiesAlive = 0 ∧
      g.portal = none ∧ g.bossSpawned = false) := by
    rintro ⟨-, -, -, hf⟩
    simp [hb] at hf
  simp only [directorStep, if_neg h1, if_neg h2]
  exact ⟨by simp, hb, by simp⟩

/-- Level 3 (a boss level, quota 10 + 3·3 = 19) after the boss has been
spawned and every enemy — the boss included — is dead. -/
def bossLevelCleared : DirectorState :=
  { level := 3, enemiesToSpawn := 19, enemiesSpawned := 19, enemiesAlive := 0,
    bossSpawned := true, portal := none }

/-- Witness for C1 at the failing input: the cleared boss level still gets
no portal and no cue. -/
theorem portal_never_after_boss_witness :
    (directorStep bossLevelCleared).1.portal = none ∧
    (directorStep bossLevelCleared).2 = false := by
  have h := portal_never_after_boss bossLevelCleared rfl
  exact ⟨h.1, h.2.2⟩

end Jasper
